import Mathlib

/-!
Shallow embedding of `windows-named-pipe` (`src/lib.rs`), a Rust wrapper around
the Windows named-pipe API.  OS behaviour is nondeterministic, so every OS call
outcome (`CreateFileW`, `CreateNamedPipeW`, `ConnectNamedPipe`, `ReadFile`,
`WriteFile`, `FlushFileBuffers`) is supplied to the modelled function as an
explicit oracle argument, and each modelled function additionally returns the
list of platform calls it issues, in order, so that ordering and
"no platform call happens" properties can be stated.
-/

namespace WindowsNamedPipe

/-- Model of `winapi::HANDLE`, a raw pointer-sized value; `INVALID_HANDLE_VALUE` is `-1`. -/
abbrev HANDLE := Int

def INVALID_HANDLE_VALUE : HANDLE := -1

/-- Constant `winapi::ERROR_PIPE_NOT_CONNECTED` (winerror.h value 233). -/
def ERROR_PIPE_NOT_CONNECTED : Nat := 233

/-- Constant `winapi::ERROR_PIPE_CONNECTED` (winerror.h value 535). -/
def ERROR_PIPE_CONNECTED : Nat := 535

/-- Truncation of `winapi::DWORD`: it is `u32`, so Rust's `as DWORD` on a `usize` truncates modulo `2^32`. -/
def dwordOf (n : Nat) : Nat := n % 2 ^ 32

/-- The message of the invalid-input error built in `to_u16s`. -/
def nulErrorMsg : String := "strings passed to WinAPI cannot contain NULs"

/-- The `std::io::Error` values this library constructs: `last_os_error()`
(whose `raw_os_error()` is an `Option`), `from_raw_os_error(code)`, and the
`ErrorKind::InvalidInput` error of `to_u16s`. -/
inductive IoError where
  | lastOs (rawCode : Option Nat)
  | fromRawOs (code : Nat)
  | invalidInput (msg : String)
deriving DecidableEq

/-- Rust `struct Handle { inner: HANDLE }` — exclusive owner of one raw handle. -/
structure Handle where
  inner : HANDLE
deriving DecidableEq

/-- Rust `struct PipeStream { server_half: bool, handle: Handle }`. -/
structure PipeStream where
  server_half : Bool
  handle : Handle
deriving DecidableEq

/-- Rust `struct PipeListener { path: Vec<u16>, next_pipe: Handle }`.  `path` is the
already-encoded, NUL-terminated wide string produced by `to_u16s` at bind time. -/
structure PipeListener where
  path : List Nat
  next_pipe : Handle
deriving DecidableEq

/-- Result of a Rust function that can return `Ok`, return `Err`, or `panic!`. -/
inductive PanicOr (α : Type) where
  | ok (a : α)
  | err (e : IoError)
  | panicked (msg : String)
deriving DecidableEq

/-- The platform calls the library issues, with the arguments the claims are
about.  A modelled operation returns the list of calls it makes, in program
order. -/
inductive OsCall where
  | waitNamedPipe (path : List Nat)
  | createFile (path : List Nat)
  | createNamedPipe (path : List Nat) (first : Bool)
  | connectNamedPipe (handle : HANDLE)
  | readFile (handle : HANDLE) (len : Nat)
  | writeFile (handle : HANDLE) (len : Nat)
  | flushFileBuffers (handle : HANDLE)
  | disconnectNamedPipe (handle : HANDLE)
  | closeHandle (handle : HANDLE)
deriving DecidableEq

/-- Oracle outcome of one `CreateFileW` call: the returned handle, and the value
`io::Error::last_os_error().raw_os_error()` would report on failure. -/
structure OsCreateFileResult where
  handle : HANDLE
  lastError : Option Nat
deriving DecidableEq

/-- Oracle outcome of one `CreateNamedPipeW` call. -/
structure OsCreateNamedPipeResult where
  handle : HANDLE
  lastError : Option Nat
deriving DecidableEq

/-- Oracle outcome of one `ConnectNamedPipe` call: `result` is whether the BOOL
return was nonzero, `lastError` is `last_os_error().raw_os_error()` on failure. -/
structure OsConnectResult where
  result : Bool
  lastError : Option Nat
deriving DecidableEq

/-- Oracle outcome of one `ReadFile` call. -/
structure OsReadResult where
  ok : Bool
  bytesRead : Nat
  lastError : Option Nat
deriving DecidableEq

/-- Oracle outcome of one `WriteFile` call. -/
structure OsWriteResult where
  ok : Bool
  bytesWritten : Nat
  lastError : Option Nat
deriving DecidableEq

/-- Oracle outcome of one `FlushFileBuffers` call. -/
structure OsFlushResult where
  ok : Bool
  lastError : Option Nat
deriving DecidableEq

/-- Model of `PipeStream::create_pipe` (client side, lib.rs:21-42): pushes a `"\x00"`
terminator onto the path (no NUL validation), encodes it, then unconditionally
issues `WaitNamedPipeW` followed by `CreateFileW`.  `units` is the
`encode_wide()` code-unit sequence of the original path. -/
def PipeStream.create_pipe (units : List Nat) (os : OsCreateFileResult) :
    Except IoError HANDLE × List OsCall :=
  let u16_slice := units ++ [0]
  let trace := [OsCall.waitNamedPipe u16_slice, OsCall.createFile u16_slice]
  if os.handle ≠ INVALID_HANDLE_VALUE then (.ok os.handle, trace)
  else (.error (.lastOs os.lastError), trace)

/-- Model of `PipeStream::connect` (lib.rs:44-51). -/
def PipeStream.connect (units : List Nat) (os : OsCreateFileResult) :
    Except IoError PipeStream × List OsCall :=
  match PipeStream.create_pipe units os with
  | (.ok handle, tr) => (.ok ⟨false, ⟨handle⟩⟩, tr)
  | (.error e, tr) => (.error e, tr)

/-- Model of `PipeStream::from_raw_handle` (lib.rs:127-134). -/
def PipeStream.from_raw_handle (handle : HANDLE) : PipeStream :=
  ⟨false, ⟨handle⟩⟩

/-- Model of `Read::read` for `PipeStream` (lib.rs:63-84).  `bufLen` is `buf.len()`;
the length handed to `ReadFile` is `buf.len() as DWORD`. -/
def PipeStream.read (s : PipeStream) (bufLen : Nat) (os : OsReadResult) :
    PanicOr Nat × List OsCall :=
  let trace := [OsCall.readFile s.handle.inner (dwordOf bufLen)]
  if os.ok then (.ok os.bytesRead, trace)
  else
    match os.lastError with
    | some c =>
        if c = ERROR_PIPE_NOT_CONNECTED then (.ok 0, trace)
        else (.err (.fromRawOs c), trace)
    | none => (.panicked "", trace)

/-- Model of `Write::write` for `PipeStream` (lib.rs:87-102). -/
def PipeStream.write (s : PipeStream) (bufLen : Nat) (os : OsWriteResult) :
    PanicOr Nat × List OsCall :=
  let trace := [OsCall.writeFile s.handle.inner (dwordOf bufLen)]
  if os.ok then (.ok os.bytesWritten, trace)
  else (.err (.lastOs os.lastError), trace)

/-- Model of `Write::flush` for `PipeStream` (lib.rs:104-112). -/
def PipeStream.flush (s : PipeStream) (os : OsFlushResult) :
    PanicOr Unit × List OsCall :=
  let trace := [OsCall.flushFileBuffers s.handle.inner]
  if os.ok then (.ok (), trace)
  else (.err (.lastOs os.lastError), trace)

/-- The platform calls made when a `PipeStream` goes out of scope:
`Drop for PipeStream` (lib.rs:54-61) flushes, then disconnects when
`server_half`; afterwards the `handle` field is dropped, and
`Drop for Handle` (lib.rs:309-313) closes the raw handle. -/
def PipeStream.dropTrace (s : PipeStream) : List OsCall :=
  [OsCall.flushFileBuffers s.handle.inner] ++
    (if s.server_half then [OsCall.disconnectNamedPipe s.handle.inner] else []) ++
    [OsCall.closeHandle s.handle.inner]

/-- The whole drop path of a `PipeStream`.  The three `Bool` arguments are the
success flags of the flush, disconnect and close-handle calls; the source
discards each result (`let _ = ...`), so neither the returned value nor the
sequence of calls depends on them: drop never fails or panics. -/
def PipeStream.drop (s : PipeStream) (_osFlush _osDisconnect _osClose : Bool) :
    Unit × List OsCall :=
  ((), PipeStream.dropTrace s)

/-- Model of `to_u16s` (lib.rs:142-153): rejects code-unit sequences containing a NUL
with an invalid-input error, otherwise appends the terminator. -/
def to_u16s (units : List Nat) : Except IoError (List Nat) :=
  if units.any (fun u => u == 0) then
    .error (.invalidInput nulErrorMsg)
  else
    .ok (units ++ [0])

/-- Model of `PipeListener::create_pipe` (lib.rs:156-177): one `CreateNamedPipeW` call
with `FILE_FLAG_FIRST_PIPE_INSTANCE` added when `first`. -/
def PipeListener.create_pipe (path : List Nat) (first : Bool)
    (os : OsCreateNamedPipeResult) : Except IoError Handle × List OsCall :=
  let trace := [OsCall.createNamedPipe path first]
  if os.handle ≠ INVALID_HANDLE_VALUE then (.ok ⟨os.handle⟩, trace)
  else (.error (.lastOs os.lastError), trace)

/-- The result translation of `PipeListener::connect_pipe` (lib.rs:179-191):
a nonzero return is success; on failure, `ERROR_PIPE_CONNECTED` is translated
to success, any other raw code is returned as an error, and an error with no
raw code panics. -/
def connect_pipe_result (os : OsConnectResult) : PanicOr Unit :=
  if os.result then .ok ()
  else
    match os.lastError with
    | some c =>
        if c = ERROR_PIPE_CONNECTED then .ok ()
        else .err (.fromRawOs c)
    | none => .panicked ""

/-- Model of `PipeListener::connect_pipe` (lib.rs:179-191) with its platform-call trace:
exactly one `ConnectNamedPipe` on the given handle. -/
def PipeListener.connect_pipe (h : Handle) (os : OsConnectResult) :
    PanicOr Unit × List OsCall :=
  (connect_pipe_result os, [OsCall.connectNamedPipe h.inner])

/-- Model of `PipeListener::bind` (lib.rs:193-200): encode and validate the path with
`to_u16s` (failing before any platform call), then create the first instance. -/
def PipeListener.bind (units : List Nat) (os : OsCreateNamedPipeResult) :
    Except IoError PipeListener × List OsCall :=
  match to_u16s units with
  | .error e => (.error e, [])
  | .ok path =>
      match PipeListener.create_pipe path true os with
      | (.ok handle, tr) => (.ok ⟨path, handle⟩, tr)
      | (.error e, tr) => (.error e, tr)

/-- Model of `PipeListener::accept` (lib.rs:202-212).  The replacement instance is
created first (it is the argument of `mem::replace`, and the `?` on it returns
early leaving `next_pipe` untouched); only then is `next_pipe` swapped out and
waited on.  Returns the accept result, the updated listener, and the calls
issued in order. -/
def PipeListener.accept (l : PipeListener) (osCreate : OsCreateNamedPipeResult)
    (osConnect : OsConnectResult) :
    PanicOr PipeStream × PipeListener × List OsCall :=
  match PipeListener.create_pipe l.path false osCreate with
  | (.error e, tr) => (.err e, l, tr)
  | (.ok fresh, tr) =>
      let handle := l.next_pipe
      let l' : PipeListener := ⟨l.path, fresh⟩
      match PipeListener.connect_pipe handle osConnect with
      | (.ok _, tr2) => (.ok ⟨true, handle⟩, l', tr ++ tr2)
      | (.err e, tr2) => (.err e, l', tr ++ tr2)
      | (.panicked m, tr2) => (.panicked m, l', tr ++ tr2)

/-- Rust `struct Incoming`: a borrow of the listener. -/
structure Incoming where
  listener : PipeListener
deriving DecidableEq

/-- Model of `PipeListener::incoming` (lib.rs:214-216). -/
def PipeListener.incoming (l : PipeListener) : Incoming := ⟨l⟩

/-- Model of `Iterator::next` for `Incoming` (lib.rs:233-239): exactly
`Some(self.listener.accept())`. -/
def Incoming.next (inc : Incoming) (osCreate : OsCreateNamedPipeResult)
    (osConnect : OsConnectResult) :
    Option (PanicOr PipeStream) × Incoming × List OsCall :=
  match inc.listener.accept osCreate osConnect with
  | (r, l', tr) => (some r, ⟨l'⟩, tr)

/-- Driving the `Incoming` iterator through one oracle outcome per advance,
collecting the items; stops early only if `next` ever returns `none`. -/
def Incoming.run : Incoming → List (OsCreateNamedPipeResult × OsConnectResult) →
    List (PanicOr PipeStream) × Incoming
  | inc, [] => ([], inc)
  | inc, o :: os =>
      match Incoming.next inc o.1 o.2 with
      | (some r, inc', _) =>
          let rest := Incoming.run inc' os
          (r :: rest.1, rest.2)
      | (none, inc', _) => ([], inc')

/-- Unfolding lemma: when the replacement creation succeeds, `accept` waits on
the old `next_pipe`, stores the fresh handle, and issues exactly the creation
call followed by the wait call. -/
theorem accept_eq_of_create_ok (l : PipeListener)
    (osCreate : OsCreateNamedPipeResult) (osConnect : OsConnectResult)
    (hc : osCreate.handle ≠ INVALID_HANDLE_VALUE) :
    PipeListener.accept l osCreate osConnect =
      ((match connect_pipe_result osConnect with
        | .ok _ => .ok ⟨true, l.next_pipe⟩
        | .err e => .err e
        | .panicked m => .panicked m),
       ⟨l.path, ⟨osCreate.handle⟩⟩,
       [OsCall.createNamedPipe l.path false,
        OsCall.connectNamedPipe l.next_pipe.inner]) := by
  unfold PipeListener.accept PipeListener.create_pipe PipeListener.connect_pipe
  rw [if_pos hc]
  cases connect_pipe_result osConnect <;> rfl

/-- Unfolding lemma: the first component of `read`, by cases on the oracle. -/
theorem read_fst_eq (s : PipeStream) (bufLen : Nat) (os : OsReadResult) :
    (PipeStream.read s bufLen os).1 =
      (if os.ok then .ok os.bytesRead
       else match os.lastError with
         | some c =>
             if c = ERROR_PIPE_NOT_CONNECTED then .ok 0
             else .err (.fromRawOs c)
         | none => .panicked "") := by
  unfold PipeStream.read
  split
  · rfl
  · split
    · split <;> rfl
    · rfl

/-- Claim C2: when the underlying `ReadFile` fails, `read` returns `Ok(0)`
(end-of-stream) exactly when the raw platform error code is
`ERROR_PIPE_NOT_CONNECTED`; every other raw code is returned unchanged as an
I/O error carrying that code. -/
theorem read_eof_iff_pipe_not_connected (s : PipeStream) (bufLen : Nat)
    (os : OsReadResult) (hf : os.ok = false) :
    ((PipeStream.read s bufLen os).1 = .ok 0 ↔
      os.lastError = some ERROR_PIPE_NOT_CONNECTED) ∧
    (∀ c, os.lastError = some c → c ≠ ERROR_PIPE_NOT_CONNECTED →
      (PipeStream.read s bufLen os).1 = .err (.fromRawOs c)) := by
  unfold PipeStream.read
  simp only [hf, Bool.false_eq_true, if_false]
  cases h : os.lastError with
  | none => simp
  | some c =>
      by_cases hc : c = ERROR_PIPE_NOT_CONNECTED <;> simp [hc]

theorem read_eof_iff_pipe_not_connected_witness :
    ((PipeStream.read ⟨false, ⟨5⟩⟩ 1 ⟨false, 0, some 233⟩).1 = .ok 0 ↔
      (some 233 : Option Nat) = some ERROR_PIPE_NOT_CONNECTED) ∧
    (∀ c, (some 233 : Option Nat) = some c → c ≠ ERROR_PIPE_NOT_CONNECTED →
      (PipeStream.read ⟨false, ⟨5⟩⟩ 1 ⟨false, 0, some 233⟩).1 =
        .err (.fromRawOs c)) :=
  read_eof_iff_pipe_not_connected ⟨false, ⟨5⟩⟩ 1 ⟨false, 0, some 233⟩ rfl

/-- Claim C3: when the `ConnectNamedPipe` wait fails, it is translated to
success exactly when the raw code is `ERROR_PIPE_CONNECTED`; in that case
`accept` behaves exactly as in the normal success case (same result, same
updated listener, same platform calls). -/
theorem connect_pipe_benign_race (os : OsConnectResult)
    (hf : os.result = false) :
    (connect_pipe_result os = .ok () ↔
      os.lastError = some ERROR_PIPE_CONNECTED) ∧
    (os.lastError = some ERROR_PIPE_CONNECTED →
      ∀ l osCreate, PipeListener.accept l osCreate os =
        PipeListener.accept l osCreate ⟨true, none⟩) := by
  constructor
  · unfold connect_pipe_result
    simp only [hf, Bool.false_eq_true, if_false]
    cases h : os.lastError with
    | none => simp
    | some c =>
        by_cases hc : c = ERROR_PIPE_CONNECTED <;> simp [hc]
  · intro he l osCreate
    unfold PipeListener.accept PipeListener.create_pipe PipeListener.connect_pipe
      connect_pipe_result
    by_cases hh : osCreate.handle = INVALID_HANDLE_VALUE <;>
      simp [hh, hf, he, ERROR_PIPE_CONNECTED]

theorem connect_pipe_benign_race_witness :
    (connect_pipe_result ⟨false, some 535⟩ = .ok () ↔
      (some 535 : Option Nat) = some ERROR_PIPE_CONNECTED) ∧
    ((some 535 : Option Nat) = some ERROR_PIPE_CONNECTED →
      ∀ l osCreate, PipeListener.accept l osCreate ⟨false, some 535⟩ =
        PipeListener.accept l osCreate ⟨true, none⟩) :=
  connect_pipe_benign_race ⟨false, some 535⟩ rfl

/-- Claim C10: the length handed to `ReadFile`/`WriteFile` is
`buf.len() as DWORD`, i.e. the buffer length modulo `2^32`; in particular a
buffer of exactly `2^32` bytes is presented to the OS with length `0`. -/
theorem read_write_len_truncated (s : PipeStream) (bufLen : Nat)
    (osr : OsReadResult) (osw : OsWriteResult) :
    (PipeStream.read s bufLen osr).2 =
      [OsCall.readFile s.handle.inner (bufLen % 2 ^ 32)] ∧
    (PipeStream.write s bufLen osw).2 =
      [OsCall.writeFile s.handle.inner (bufLen % 2 ^ 32)] ∧
    dwordOf (2 ^ 32) = 0 := by
  refine ⟨?_, ?_, by norm_num [dwordOf]⟩
  · unfold PipeStream.read
    split
    · rfl
    · split
      · split <;> rfl
      · rfl
  · unfold PipeStream.write
    split <;> rfl

/-- Claim C5 counterexample: the path with code units `[104, 0]` contains an
embedded NUL, yet `PipeStream::connect` does not fail with an invalid-input
error — it succeeds (given a valid handle from the OS) and issues both
platform calls (`WaitNamedPipeW` then `CreateFileW`). -/
theorem connect_with_nul_counterexample :
    (0 : Nat) ∈ ([104, 0] : List Nat) ∧
    (PipeStream.connect [104, 0] ⟨5, none⟩).1 = .ok ⟨false, ⟨5⟩⟩ ∧
    (PipeStream.connect [104, 0] ⟨5, none⟩).2 =
      [OsCall.waitNamedPipe [104, 0, 0], OsCall.createFile [104, 0, 0]] := by
  refine ⟨by simp, rfl, rfl⟩

/-- Claim C5 (amended): for every path containing an embedded NUL,
`PipeListener::bind` fails with an invalid-input error before issuing any
platform call; `PipeStream::connect`, however, performs no NUL validation —
it appends a terminator and unconditionally issues the platform calls, and
never produces an invalid-input error. -/
theorem bind_rejects_nul_connect_skips_validation (units : List Nat)
    (h : (0 : Nat) ∈ units) :
    (∀ os, PipeListener.bind units os =
      (.error (.invalidInput nulErrorMsg), [])) ∧
    (∀ os, (PipeStream.connect units os).2 =
        [OsCall.waitNamedPipe (units ++ [0]), OsCall.createFile (units ++ [0])] ∧
      ∀ msg, (PipeStream.connect units os).1 ≠ .error (.invalidInput msg)) := by
  have hany : units.any (fun u => u == 0) = true := by
    simp only [List.any_eq_true, beq_iff_eq]
    exact ⟨0, h, rfl⟩
  constructor
  · intro os
    unfold PipeListener.bind to_u16s
    simp [hany]
  · intro os
    unfold PipeStream.connect PipeStream.create_pipe
    by_cases hh : os.handle = INVALID_HANDLE_VALUE <;> simp [hh]

theorem bind_rejects_nul_connect_skips_validation_witness :
    PipeListener.bind [0] ⟨7, none⟩ =
      (.error (.invalidInput nulErrorMsg), []) ∧
    (PipeStream.connect [0] ⟨7, none⟩).2 =
      [OsCall.waitNamedPipe [0, 0], OsCall.createFile [0, 0]] := by
  have h := bind_rejects_nul_connect_skips_validation [0] (by simp)
  exact ⟨h.1 ⟨7, none⟩, (h.2 ⟨7, none⟩).1⟩

/-- Claim C1: `accept` creates the replacement instance before issuing the
wait (the platform-call trace is the `CreateNamedPipeW` creation followed by
the `ConnectNamedPipe` wait on the swapped-out old instance), and the updated
listener holds the freshly created instance regardless of the wait's outcome;
moreover a failed creation leaves the listener (and its armed instance)
untouched, and `bind` arms `next_pipe` with the instance it creates — so
whenever the listener is not mid-accept, `next_pipe` holds the instance most
recently created for it and there is no window without an armed instance. -/
theorem accept_arms_next_pipe_before_wait (l : PipeListener)
    (osCreate : OsCreateNamedPipeResult) (osConnect : OsConnectResult)
    (hc : osCreate.handle ≠ INVALID_HANDLE_VALUE) :
    (PipeListener.accept l osCreate osConnect).2.2 =
      [OsCall.createNamedPipe l.path false,
        OsCall.connectNamedPipe l.next_pipe.inner] ∧
    (PipeListener.accept l osCreate osConnect).2.1 =
      ⟨l.path, ⟨osCreate.handle⟩⟩ ∧
    (∀ osc : OsCreateNamedPipeResult, osc.handle = INVALID_HANDLE_VALUE →
      (PipeListener.accept l osc osConnect).2.1 = l) ∧
    (∀ units os listener tr,
      PipeListener.bind units os = (.ok listener, tr) →
      listener.next_pipe = ⟨os.handle⟩) := by
  refine ⟨?_, ?_, ?_, ?_⟩
  · rw [accept_eq_of_create_ok l osCreate osConnect hc]
  · rw [accept_eq_of_create_ok l osCreate osConnect hc]
  · intro osc hosc
    unfold PipeListener.accept PipeListener.create_pipe
    rw [if_neg (by simp [hosc])]
  · intro units os listener tr hb
    unfold PipeListener.bind to_u16s PipeListener.create_pipe at hb
    by_cases ha : units.any (fun u => u == 0)
    · rw [if_pos ha] at hb
      simp at hb
    · rw [if_neg ha] at hb
      dsimp only at hb
      by_cases hh : os.handle = INVALID_HANDLE_VALUE
      · rw [if_neg (not_not_intro hh)] at hb
        simp at hb
      · rw [if_pos hh] at hb
        dsimp only at hb
        simp only [Prod.mk.injEq, Except.ok.injEq] at hb
        obtain ⟨h1, h2⟩ := hb
        subst h1
        rfl

theorem accept_arms_next_pipe_before_wait_witness :
    (PipeListener.accept ⟨[1, 0], ⟨7⟩⟩ ⟨9, none⟩ ⟨true, none⟩).2.2 =
      [OsCall.createNamedPipe [1, 0] false, OsCall.connectNamedPipe 7] ∧
    (PipeListener.accept ⟨[1, 0], ⟨7⟩⟩ ⟨9, none⟩ ⟨true, none⟩).2.1 =
      ⟨[1, 0], ⟨9⟩⟩ ∧
    (PipeListener.accept ⟨[1, 0], ⟨7⟩⟩ ⟨-1, some 5⟩ ⟨true, none⟩).2.1 =
      ⟨[1, 0], ⟨7⟩⟩ ∧
    (⟨[1, 0], ⟨3⟩⟩ : PipeListener).next_pipe = ⟨3⟩ := by
  have h := accept_arms_next_pipe_before_wait ⟨[1, 0], ⟨7⟩⟩ ⟨9, none⟩
    ⟨true, none⟩ (by decide)
  exact ⟨h.1, h.2.1, h.2.2.1 ⟨-1, some 5⟩ rfl,
    h.2.2.2 [1] ⟨3, none⟩ ⟨[1, 0], ⟨3⟩⟩
      [OsCall.createNamedPipe [1, 0] true] (by rfl)⟩

/-- Claim C4: `server_half` is true exactly for streams produced by
`PipeListener::accept`; `PipeStream::connect` and
`PipeStream::from_raw_handle` always produce `server_half = false`. -/
theorem server_half_tracks_producer :
    (∀ units os s tr,
      PipeStream.connect units os = (.ok s, tr) → s.server_half = false) ∧
    (∀ h, (PipeStream.from_raw_handle h).server_half = false) ∧
    (∀ l osCreate osConnect s l' tr,
      PipeListener.accept l osCreate osConnect = (.ok s, l', tr) →
      s.server_half = true) := by
  refine ⟨?_, fun h => rfl, ?_⟩
  · intro units os s tr hc
    unfold PipeStream.connect PipeStream.create_pipe at hc
    by_cases hh : os.handle = INVALID_HANDLE_VALUE
    · rw [if_neg (not_not_intro hh)] at hc
      simp at hc
    · rw [if_pos hh] at hc
      simp only [Prod.mk.injEq, Except.ok.injEq] at hc
      obtain ⟨h1, h2⟩ := hc
      subst h1
      rfl
  · intro l osCreate osConnect s l' tr hc
    by_cases hh : osCreate.handle = INVALID_HANDLE_VALUE
    · unfold PipeListener.accept PipeListener.create_pipe at hc
      rw [if_neg (not_not_intro hh)] at hc
      simp at hc
    · rw [accept_eq_of_create_ok l osCreate osConnect hh] at hc
      cases hcp : connect_pipe_result osConnect <;> rw [hcp] at hc <;>
        simp only [Prod.mk.injEq] at hc
      · obtain ⟨h1, _⟩ := hc
        obtain ⟨h1⟩ := PanicOr.ok.inj h1.symm
        rfl
      · exact absurd hc.1 (by simp)
      · exact absurd hc.1 (by simp)

theorem server_half_tracks_producer_witness :
    ((⟨false, ⟨5⟩⟩ : PipeStream).server_half = false) ∧
    ((PipeStream.from_raw_handle 4).server_half = false) ∧
    ((⟨true, ⟨7⟩⟩ : PipeStream).server_half = true) := by
  have h := server_half_tracks_producer
  exact ⟨h.1 [104] ⟨5, none⟩ ⟨false, ⟨5⟩⟩
      [OsCall.waitNamedPipe [104, 0], OsCall.createFile [104, 0]] (by rfl),
    h.2.1 4,
    h.2.2 ⟨[1, 0], ⟨7⟩⟩ ⟨9, none⟩ ⟨true, none⟩ ⟨true, ⟨7⟩⟩ ⟨[1, 0], ⟨9⟩⟩
      [OsCall.createNamedPipe [1, 0] false, OsCall.connectNamedPipe 7]
      (by rfl)⟩

/-- Claim C6: the drop path of a `PipeStream` always attempts the flush,
attempts the disconnect exactly when `server_half`, performs both before the
handle release (`CloseHandle`), and swallows all failures: the outcome and the
sequence of calls do not depend on the success flags, and the drop returns
normally. -/
theorem drop_flushes_disconnects_then_closes (s : PipeStream)
    (rf rd rc : Bool) :
    (PipeStream.drop s rf rd rc).1 = () ∧
    ∃ pre, (PipeStream.drop s rf rd rc).2 =
        pre ++ [OsCall.closeHandle s.handle.inner] ∧
      OsCall.flushFileBuffers s.handle.inner ∈ pre ∧
      (OsCall.disconnectNamedPipe s.handle.inner ∈ pre ↔
        s.server_half = true) := by
  refine ⟨rfl,
    [OsCall.flushFileBuffers s.handle.inner] ++
      (if s.server_half then [OsCall.disconnectNamedPipe s.handle.inner]
       else []),
    rfl, by simp, ?_⟩
  cases h : s.server_half <;> simp

theorem drop_flushes_disconnects_then_closes_witness :
    (PipeStream.drop ⟨true, ⟨4⟩⟩ true false true).1 = () ∧
    ∃ pre, (PipeStream.drop ⟨true, ⟨4⟩⟩ true false true).2 =
        pre ++ [OsCall.closeHandle 4] ∧
      OsCall.flushFileBuffers 4 ∈ pre ∧
      (OsCall.disconnectNamedPipe 4 ∈ pre ↔ true = true) :=
  drop_flushes_disconnects_then_closes ⟨true, ⟨4⟩⟩ true false true

/-- Claim C7: when the wait fails with any raw code other than the benign
`ERROR_PIPE_CONNECTED`, `accept` returns that code as an I/O error and the
listener still holds the freshly created replacement instance (same path,
`next_pipe` armed with the new handle), so a subsequent `accept` proceeds
normally. -/
theorem accept_wait_error_keeps_fresh_instance (l : PipeListener)
    (osCreate : OsCreateNamedPipeResult) (osConnect : OsConnectResult)
    (c : Nat) (hc : osCreate.handle ≠ INVALID_HANDLE_VALUE)
    (hw : osConnect.result = false)
    (he : osConnect.lastError = some c)
    (hne : c ≠ ERROR_PIPE_CONNECTED) :
    (PipeListener.accept l osCreate osConnect).1 = .err (.fromRawOs c) ∧
    (PipeListener.accept l osCreate osConnect).2.1 =
      ⟨l.path, ⟨osCreate.handle⟩⟩ := by
  have hcp : connect_pipe_result osConnect = .err (.fromRawOs c) := by
    unfold connect_pipe_result
    rw [if_neg (by simp [hw]), he]
    exact if_neg hne
  rw [accept_eq_of_create_ok l osCreate osConnect hc, hcp]
  exact ⟨rfl, rfl⟩

theorem accept_wait_error_keeps_fresh_instance_witness :
    (PipeListener.accept ⟨[1, 0], ⟨7⟩⟩ ⟨9, none⟩ ⟨false, some 5⟩).1 =
      .err (.fromRawOs 5) ∧
    (PipeListener.accept ⟨[1, 0], ⟨7⟩⟩ ⟨9, none⟩ ⟨false, some 5⟩).2.1 =
      ⟨[1, 0], ⟨9⟩⟩ :=
  accept_wait_error_keeps_fresh_instance ⟨[1, 0], ⟨7⟩⟩ ⟨9, none⟩
    ⟨false, some 5⟩ 5 (by decide) rfl rfl (by decide)

/-- Claim C8: the only two panic sites are the two error-translation points:
`read` panics exactly when `ReadFile` failed and the error has no raw OS code,
and `connect_pipe` panics exactly when `ConnectNamedPipe` failed and the error
has no raw OS code; `write` and `flush` never panic. -/
theorem panic_only_at_read_and_wait (s : PipeStream) (bufLen : Nat)
    (osr : OsReadResult) (osw : OsWriteResult) (osf : OsFlushResult)
    (osc : OsConnectResult) :
    ((∃ m, (PipeStream.read s bufLen osr).1 = .panicked m) ↔
      osr.ok = false ∧ osr.lastError = none) ∧
    ((∃ m, connect_pipe_result osc = .panicked m) ↔
      osc.result = false ∧ osc.lastError = none) ∧
    (∀ m, (PipeStream.write s bufLen osw).1 ≠ .panicked m) ∧
    (∀ m, (PipeStream.flush s osf).1 ≠ .panicked m) := by
  refine ⟨?_, ?_, ?_, ?_⟩
  · rw [read_fst_eq]
    obtain ⟨ok, br, le⟩ := osr
    cases ok <;> cases le <;> simp
    split <;> simp
  · obtain ⟨r, le⟩ := osc
    unfold connect_pipe_result
    cases r <;> cases le <;> simp
    split <;> simp
  · intro m
    unfold PipeStream.write
    cases h : osw.ok <;> simp [h]
  · intro m
    unfold PipeStream.flush
    cases h : osf.ok <;> simp [h]

theorem panic_only_at_read_and_wait_witness :
    ((∃ m, (PipeStream.read ⟨false, ⟨3⟩⟩ 2 ⟨false, 0, none⟩).1 =
        .panicked m) ↔ false = false ∧ (none : Option Nat) = none) ∧
    ((∃ m, connect_pipe_result ⟨false, none⟩ = .panicked m) ↔
      false = false ∧ (none : Option Nat) = none) ∧
    (∀ m, (PipeStream.write ⟨false, ⟨3⟩⟩ 2 ⟨true, 1, none⟩).1 ≠
      .panicked m) ∧
    (∀ m, (PipeStream.flush ⟨false, ⟨3⟩⟩ ⟨true, none⟩).1 ≠ .panicked m) :=
  panic_only_at_read_and_wait ⟨false, ⟨3⟩⟩ 2 ⟨false, 0, none⟩ ⟨true, 1, none⟩
    ⟨true, none⟩ ⟨false, none⟩

/-- Claim C9: every advance of `Incoming` performs exactly one `accept` on the
borrowed listener and returns `Some` of its result (threading the listener
state and issuing exactly accept's platform calls); `next` never returns
`None`, and driving the iterator through any oracle sequence yields exactly
one item per advance — errors are not filtered out and iteration continues
after a failed item. -/
theorem incoming_next_is_one_accept (inc : Incoming)
    (osCreate : OsCreateNamedPipeResult) (osConnect : OsConnectResult)
    (os : List (OsCreateNamedPipeResult × OsConnectResult)) :
    Incoming.next inc osCreate osConnect =
      (some (inc.listener.accept osCreate osConnect).1,
       ⟨(inc.listener.accept osCreate osConnect).2.1⟩,
       (inc.listener.accept osCreate osConnect).2.2) ∧
    (Incoming.next inc osCreate osConnect).1 ≠ none ∧
    (Incoming.run inc os).1.length = os.length := by
  refine ⟨?_, ?_, ?_⟩
  · unfold Incoming.next
    rcases h : inc.listener.accept osCreate osConnect with ⟨r, l', tr⟩
    rfl
  · unfold Incoming.next
    rcases h : inc.listener.accept osCreate osConnect with ⟨r, l', tr⟩
    simp
  · induction os generalizing inc with
    | nil => rfl
    | cons o os ih =>
        unfold Incoming.run Incoming.next
        rcases h : inc.listener.accept o.1 o.2 with ⟨r, l', tr⟩
        simp [ih]

theorem incoming_next_is_one_accept_witness :
    Incoming.next ⟨⟨[1, 0], ⟨7⟩⟩⟩ ⟨9, none⟩ ⟨true, none⟩ =
      (some (PipeListener.accept ⟨[1, 0], ⟨7⟩⟩ ⟨9, none⟩ ⟨true, none⟩).1,
       ⟨(PipeListener.accept ⟨[1, 0], ⟨7⟩⟩ ⟨9, none⟩ ⟨true, none⟩).2.1⟩,
       (PipeListener.accept ⟨[1, 0], ⟨7⟩⟩ ⟨9, none⟩ ⟨true, none⟩).2.2) ∧
    (Incoming.next ⟨⟨[1, 0], ⟨7⟩⟩⟩ ⟨9, none⟩ ⟨true, none⟩).1 ≠ none ∧
    (Incoming.run ⟨⟨[1, 0], ⟨7⟩⟩⟩
      [(⟨9, none⟩, ⟨false, some 5⟩), (⟨11, none⟩, ⟨true, none⟩)]).1.length =
      2 :=
  incoming_next_is_one_accept ⟨⟨[1, 0], ⟨7⟩⟩⟩ ⟨9, none⟩ ⟨true, none⟩
    [(⟨9, none⟩, ⟨false, some 5⟩), (⟨11, none⟩, ⟨true, none⟩)]

/-- Witness for the truncation claim at concrete inputs. -/
theorem read_write_len_truncated_witness :
    (PipeStream.read ⟨false, ⟨2⟩⟩ 3 ⟨true, 0, none⟩).2 =
      [OsCall.readFile 2 (3 % 2 ^ 32)] ∧
    (PipeStream.write ⟨false, ⟨2⟩⟩ 3 ⟨true, 0, none⟩).2 =
      [OsCall.writeFile 2 (3 % 2 ^ 32)] ∧
    dwordOf (2 ^ 32) = 0 :=
  read_write_len_truncated ⟨false, ⟨2⟩⟩ 3 ⟨true, 0, none⟩ ⟨true, 0, none⟩

end WindowsNamedPipe
